import Mathlib

/-!
# SwiftRemit — shallow embedding of the storage layer and settlement logic

This development embeds the SwiftRemit Soroban contract (files
`src/errors.rs` and `src/storage.rs`) in Lean 4 and proves the frozen
claims about it.

Modelling conventions:
- `Address` (an opaque Soroban identifier compared only for equality) is `Nat`.
- `u64` values (timestamps, ids, cooldowns) are `Nat`; `u64::saturating_sub`
  is exactly `Nat` subtraction.
- `i128` amounts are `Int`; Rust `/` on `i128` truncates toward zero, which
  is `Int.tdiv`.
- `u32` values (fee bps, admin count) are `Nat`.
- The two Soroban storage tiers (instance / persistent) are flattened into
  one record of typed cells; a per-key map is a function into `Option`,
  where `none` means the key is absent.
- The external collaborators (token transfer, authorization, clock) are out
  of scope per the spec: authorization (`require_auth`) is modelled as a
  no-op, the clock is the `timestamp` field, and the token-transfer
  collaborator is an append-only event log `externalTransfers`.
-/

/-- Soroban `Address`: opaque identifier, equality only. -/
abbrev Address := Nat

/-- Remittance lifecycle status (spec 3: created → settled, terminal). -/
inductive RemittanceStatus where
  | created
  | settled
deriving DecidableEq, Repr

/-- Modelled from the spec: the `Remittance` record (spec 3); its Rust
definition lives in the crate root, which is not among the provided source
files (only `errors.rs` and `storage.rs` are). Fields per spec 3: id,
sender, recipient, amount, fee, currency, country, status. -/
structure Remittance where
  id : Nat
  sender : Address
  recipient : Address
  amount : Int
  fee : Int
  currency : String
  country : String
  status : RemittanceStatus
deriving DecidableEq, Repr

/-- Modelled from the spec: the `TransferRecord` (spec 3: timestamp, amount,
currency, country); its Rust definition is in the crate root, not in the
provided sources. -/
structure TransferRecord where
  timestamp : Nat
  amount : Int
  currency : String
  country : String
deriving DecidableEq, Repr

/-- The `DailyLimit` record. Its field names and content are visible in
`storage.rs` (`set_daily_limit` constructs
`DailyLimit { currency, country, limit }`). -/
structure DailyLimit where
  currency : String
  country : String
  limit : Int
deriving DecidableEq, Repr

/-- The contract error type.

The thirteen variants `DuplicateSettlement` … `DailySendLimitExceeded` are
declared in `src/errors.rs` with explicit `u32` discriminants.

`NotInitialized` and `RemittanceNotFound` are modelled from the spec:
`storage.rs` returns `ContractError::NotInitialized` and
`ContractError::RemittanceNotFound`, and the spec's error taxonomy (spec 7)
lists initialization and resource-not-found errors, but no variant of either
name is declared in `errors.rs` (nor anywhere else in the provided sources),
so they carry no declared discriminant here. -/
inductive ContractError where
  | NotInitialized
  | RemittanceNotFound
  | DuplicateSettlement
  | ContractPaused
  | RateLimitExceeded
  | Unauthorized
  | AdminAlreadyExists
  | AdminNotFound
  | CannotRemoveLastAdmin
  | TokenNotWhitelisted
  | TokenAlreadyWhitelisted
  | InvalidMigrationHash
  | MigrationInProgress
  | InvalidMigrationBatch
  | DailySendLimitExceeded
deriving DecidableEq, Repr

/-- The numeric discriminant each variant is declared with in
`src/errors.rs` (`#[repr(u32)]`, explicit `= n` values). The two variants
that are only referenced by `storage.rs` but not declared in `errors.rs`
have no declared discriminant (`none`). -/
def ContractError.discriminant : ContractError → Option Nat
  | .NotInitialized => none
  | .RemittanceNotFound => none
  | .DuplicateSettlement => some 12
  | .ContractPaused => some 13
  | .RateLimitExceeded => some 14
  | .Unauthorized => some 14
  | .AdminAlreadyExists => some 15
  | .AdminNotFound => some 16
  | .CannotRemoveLastAdmin => some 17
  | .TokenNotWhitelisted => some 18
  | .TokenAlreadyWhitelisted => some 19
  | .InvalidMigrationHash => some 20
  | .MigrationInProgress => some 21
  | .InvalidMigrationBatch => some 22
  | .DailySendLimitExceeded => some 23

/-- One record of the external token-transfer collaborator's effect:
`amount` tokens moved to the address `recipient`. -/
structure TokenTransfer where
  recipient : Address
  amount : Int
deriving DecidableEq, Repr

/-- The contract's world state: every storage cell of `DataKey`
(`storage.rs`), the clock collaborator's current time, and the external
token-transfer collaborator's event log. `none` / a map returning `none`
means the key is absent from storage. -/
structure Env where
  admin : Option Address
  usdcToken : Option Address
  platformFeeBps : Option Nat
  remittanceCounter : Option Nat
  remittance : Nat → Option Remittance
  agentRegistered : Address → Option Bool
  accumulatedFees : Option Int
  paused : Option Bool
  settlementHash : Nat → Option Bool
  rateLimitCooldown : Option Nat
  lastSettlementTime : Address → Option Nat
  dailyLimit : String → String → Option DailyLimit
  userTransfers : Address → Option (List TransferRecord)
  adminRole : Address → Option Bool
  adminCount : Option Nat
  tokenWhitelisted : Address → Option Bool
  timestamp : Nat
  externalTransfers : List TokenTransfer

/-- A completely fresh contract instance: no key was ever written. -/
def emptyEnv : Env where
  admin := none
  usdcToken := none
  platformFeeBps := none
  remittanceCounter := none
  remittance := fun _ => none
  agentRegistered := fun _ => none
  accumulatedFees := none
  paused := none
  settlementHash := fun _ => none
  rateLimitCooldown := none
  lastSettlementTime := fun _ => none
  dailyLimit := fun _ _ => none
  userTransfers := fun _ => none
  adminRole := fun _ => none
  adminCount := none
  tokenWhitelisted := fun _ => none
  timestamp := 0
  externalTransfers := []

/-- Point update of a `Nat`-keyed storage map. -/
def upd {β : Type} (m : Nat → β) (k : Nat) (v : β) : Nat → β :=
  fun x => if x = k then v else m x

/-- `Option::ok_or`: turn an absent value into the given error. -/
def okOr {α : Type} (o : Option α) (e : ContractError) : Except ContractError α :=
  match o with
  | some a => .ok a
  | none => .error e

/-! ## Storage accessors transcribed from `src/storage.rs` -/

def has_admin (e : Env) : Bool := e.admin.isSome

def set_admin (e : Env) (a : Address) : Env := { e with admin := some a }

def get_admin (e : Env) : Except ContractError Address :=
  okOr e.admin .NotInitialized

def set_usdc_token (e : Env) (t : Address) : Env := { e with usdcToken := some t }

def get_usdc_token (e : Env) : Except ContractError Address :=
  okOr e.usdcToken .NotInitialized

def set_platform_fee_bps (e : Env) (feeBps : Nat) : Env :=
  { e with platformFeeBps := some feeBps }

def get_platform_fee_bps (e : Env) : Except ContractError Nat :=
  okOr e.platformFeeBps .NotInitialized

def set_remittance_counter (e : Env) (c : Nat) : Env :=
  { e with remittanceCounter := some c }

def get_remittance_counter (e : Env) : Except ContractError Nat :=
  okOr e.remittanceCounter .NotInitialized

def set_remittance (e : Env) (id : Nat) (r : Remittance) : Env :=
  { e with remittance := upd e.remittance id (some r) }

def get_remittance (e : Env) (id : Nat) : Except ContractError Remittance :=
  okOr (e.remittance id) .RemittanceNotFound

def set_agent_registered (e : Env) (a : Address) (registered : Bool) : Env :=
  { e with agentRegistered := upd e.agentRegistered a (some registered) }

def is_agent_registered (e : Env) (a : Address) : Bool :=
  (e.agentRegistered a).getD false

def set_accumulated_fees (e : Env) (fees : Int) : Env :=
  { e with accumulatedFees := some fees }

def get_accumulated_fees (e : Env) : Except ContractError Int :=
  okOr e.accumulatedFees .NotInitialized

def has_settlement_hash (e : Env) (remittanceId : Nat) : Bool :=
  (e.settlementHash remittanceId).isSome

def set_settlement_hash (e : Env) (remittanceId : Nat) : Env :=
  { e with settlementHash := upd e.settlementHash remittanceId (some true) }

def is_paused (e : Env) : Bool := e.paused.getD false

def set_paused (e : Env) (p : Bool) : Env := { e with paused := some p }

def set_rate_limit_cooldown (e : Env) (cooldownSeconds : Nat) : Env :=
  { e with rateLimitCooldown := some cooldownSeconds }

def get_rate_limit_cooldown (e : Env) : Except ContractError Nat :=
  okOr e.rateLimitCooldown .NotInitialized

def set_last_settlement_time (e : Env) (sender : Address) (ts : Nat) : Env :=
  { e with lastSettlementTime := upd e.lastSettlementTime sender (some ts) }

def get_last_settlement_time (e : Env) (sender : Address) : Option Nat :=
  e.lastSettlementTime sender

/-- `check_rate_limit` from `storage.rs`: load the cooldown
(`NotInitialized` when never configured), `0` disables the check, otherwise
compare `current_time.saturating_sub(last_time)` against the cooldown. -/
def check_rate_limit (e : Env) (sender : Address) : Except ContractError Unit :=
  match get_rate_limit_cooldown e with
  | .error err => .error err
  | .ok cooldown =>
    if cooldown = 0 then .ok ()
    else
      match get_last_settlement_time e sender with
      | some lastTime =>
        if e.timestamp - lastTime < cooldown then .error .RateLimitExceeded
        else .ok ()
      | none => .ok ()

def set_daily_limit (e : Env) (currency country : String) (limit : Int) : Env :=
  { e with dailyLimit := fun c k =>
      if c = currency ∧ k = country then some ⟨currency, country, limit⟩
      else e.dailyLimit c k }

def get_daily_limit (e : Env) (currency country : String) : Option DailyLimit :=
  e.dailyLimit currency country

def get_user_transfers (e : Env) (user : Address) : List TransferRecord :=
  (e.userTransfers user).getD []

def set_user_transfers (e : Env) (user : Address) (transfers : List TransferRecord) : Env :=
  { e with userTransfers := upd e.userTransfers user (some transfers) }

def is_admin (e : Env) (a : Address) : Bool := (e.adminRole a).getD false

def set_admin_role (e : Env) (a : Address) (isAdm : Bool) : Env :=
  { e with adminRole := upd e.adminRole a (some isAdm) }

def get_admin_count (e : Env) : Nat := e.adminCount.getD 0

def set_admin_count (e : Env) (count : Nat) : Env :=
  { e with adminCount := some count }

/-- `require_admin` from `storage.rs`. `address.require_auth()` is the
out-of-scope authorization collaborator and is modelled as a no-op; the
admin-flag check is the in-scope part. -/
def require_admin (e : Env) (a : Address) : Except ContractError Unit :=
  if ¬ is_admin e a then .error .Unauthorized else .ok ()

def is_token_whitelisted (e : Env) (t : Address) : Bool :=
  (e.tokenWhitelisted t).getD false

def set_token_whitelisted (e : Env) (t : Address) (whitelisted : Bool) : Env :=
  { e with tokenWhitelisted := upd e.tokenWhitelisted t (some whitelisted) }

/-! ## Operations modelled from the spec

`confirm_payout`, the admin registry operations and the daily-limit check
are described in the spec (sections 2, 4.1, 4.4, 4.5) but their Rust code is
in crate files that are not among the provided sources; only their storage
helpers above are. They are modelled here from the spec's words. -/

/-- The 24-hour window in seconds. -/
def dayWindow : Nat := 86400

/-- Sum of the amounts of `user`'s transfer records for the
`(currency, country)` pair whose timestamps lie within the trailing 24
hours of `e.timestamp` (window start clamps at zero by `Nat` subtraction). -/
def daily_window_sum (e : Env) (user : Address) (currency country : String) : Int :=
  ((get_user_transfers e user).filter fun r =>
      decide (r.currency = currency) && decide (r.country = country) &&
      decide (e.timestamp - dayWindow ≤ r.timestamp)).foldl
    (fun acc r => acc + r.amount) 0

/-- Modelled from the spec: `check_daily_limit(user, currency, country,
amount)` (spec 4.4) — sums the user's records for that pair within the
trailing 24 hours; if a cap is configured for the pair and `sum + amount`
exceeds it, fails `DailySendLimitExceeded`; if no cap is configured, no
limit is enforced. Uses `get_daily_limit` / `get_user_transfers` from
`storage.rs`. -/
def check_daily_limit (e : Env) (user : Address) (currency country : String)
    (amount : Int) : Except ContractError Unit :=
  match get_daily_limit e currency country with
  | none => .ok ()
  | some dl =>
    if dl.limit < daily_window_sum e user currency country + amount then
      .error .DailySendLimitExceeded
    else .ok ()

/-- Modelled from the spec: `record_transfer(user, record)` (spec 4.4) —
appends to the user's transfer sequence, dropping entries older than the
24-hour window on write. -/
def record_transfer (e : Env) (user : Address) (record : TransferRecord) : Env :=
  let kept := (get_user_transfers e user).filter fun r =>
    decide (e.timestamp - dayWindow ≤ r.timestamp)
  set_user_transfers e user (kept ++ [record])

/-- Arguments of `confirm_payout(sender, id, recipient, amount, currency,
country)` (spec 4.5). -/
structure PayoutParams where
  sender : Address
  id : Nat
  recipient : Address
  amount : Int
  currency : String
  country : String
deriving DecidableEq, Repr

/-- The write sequence a successful settlement performs (spec 4.5): persist
the `Remittance` record, set the dedup marker, append the
`TransferRecord`, add the fee to `AccumulatedFees`, refresh the sender's
last-settlement timestamp; the external transfer of `amount - fee` to the
recipient is the appended `TokenTransfer` event. -/
def settle_writes (e : Env) (p : PayoutParams) (fee fees : Int) : Env :=
  let e1 := { e with externalTransfers :=
    e.externalTransfers ++ [⟨p.recipient, p.amount - fee⟩] }
  let e2 := set_remittance e1 p.id
    ⟨p.id, p.sender, p.recipient, p.amount, fee, p.currency, p.country, .settled⟩
  let e3 := set_settlement_hash e2 p.id
  let e4 := record_transfer e3 p.sender ⟨e.timestamp, p.amount, p.currency, p.country⟩
  let e5 := set_accumulated_fees e4 (fees + fee)
  set_last_settlement_time e5 p.sender e.timestamp

/-- Modelled from the spec: `confirm_payout` (spec 4.5). Preconditions in
the spec's order — not paused (`ContractPaused`), settlement token
whitelisted (`TokenNotWhitelisted`), id not already marked
(`DuplicateSettlement`), rate limit, daily limit. On success
`fee = floor(amount * fee_bps / 10000)` (Rust `i128` division, i.e.
`Int.tdiv`), the external transfer moves `amount - fee` to the recipient,
and the ledger writes of `settle_writes` are performed. Sender
authorization is the out-of-scope collaborator. A returned error means the
invocation aborted with zero state change (spec 5: atomicity is provided
by the execution environment). -/
def confirm_payout (e : Env) (p : PayoutParams) : Except ContractError Env :=
  if is_paused e then .error .ContractPaused
  else
    match get_usdc_token e with
    | .error err => .error err
    | .ok token =>
      if ¬ is_token_whitelisted e token then .error .TokenNotWhitelisted
      else if has_settlement_hash e p.id then .error .DuplicateSettlement
      else
        match check_rate_limit e p.sender with
        | .error err => .error err
        | .ok _ =>
          match check_daily_limit e p.sender p.currency p.country p.amount with
          | .error err => .error err
          | .ok _ =>
            match get_platform_fee_bps e with
            | .error err => .error err
            | .ok feeBps =>
              match get_accumulated_fees e with
              | .error err => .error err
              | .ok fees =>
                .ok (settle_writes e p ((p.amount * (feeBps : Int)).tdiv 10000) fees)

/-- Fold a sequence of `confirm_payout` invocations over the state; a
failed invocation leaves the state unchanged (fail-fast atomicity,
spec 5 / 7). -/
def applyPayouts (e : Env) : List PayoutParams → Env
  | [] => e
  | p :: ps =>
    applyPayouts (match confirm_payout e p with | .ok e1 => e1 | .error _ => e) ps

/-- Modelled from the spec: `add_admin(caller, new)` (spec 4.1) — requires
the caller to already be an admin, fails `AdminAlreadyExists` if `new`
already is one, otherwise flags `new` and increments the count. -/
def add_admin (e : Env) (caller newAdmin : Address) : Except ContractError Env :=
  match require_admin e caller with
  | .error err => .error err
  | .ok _ =>
    if is_admin e newAdmin then .error .AdminAlreadyExists
    else
      .ok (set_admin_count (set_admin_role e newAdmin true) (get_admin_count e + 1))

/-- Modelled from the spec: `remove_admin(caller, target)` (spec 4.1) —
requires the caller admin; fails `AdminNotFound` if the target is not an
admin; fails `CannotRemoveLastAdmin` if the count is 1; otherwise unflags
the target and decrements the count. -/
def remove_admin (e : Env) (caller target : Address) : Except ContractError Env :=
  match require_admin e caller with
  | .error err => .error err
  | .ok _ =>
    if ¬ is_admin e target then .error .AdminNotFound
    else if get_admin_count e = 1 then .error .CannotRemoveLastAdmin
    else
      .ok (set_admin_count (set_admin_role e target false) (get_admin_count e - 1))

/-- One admin-registry operation (spec 4.1). -/
inductive AdminOp where
  | add (caller newAdmin : Address)
  | remove (caller target : Address)
deriving DecidableEq, Repr

/-- Apply one admin operation; a failed operation changes nothing. -/
def AdminOp.apply (e : Env) : AdminOp → Env
  | .add caller newAdmin =>
    match add_admin e caller newAdmin with | .ok e1 => e1 | .error _ => e
  | .remove caller target =>
    match remove_admin e caller target with | .ok e1 => e1 | .error _ => e

/-- Fold a sequence of admin operations over the state. -/
def applyAdminOps (e : Env) (ops : List AdminOp) : Env :=
  ops.foldl AdminOp.apply e

/-- One state-mutating storage operation exposed by `src/storage.rs` (its
public setter surface). -/
inductive StorageOp where
  | opSetAdmin (a : Address)
  | opSetUsdcToken (t : Address)
  | opSetPlatformFeeBps (f : Nat)
  | opSetRemittanceCounter (c : Nat)
  | opSetRemittance (id : Nat) (r : Remittance)
  | opSetAgentRegistered (a : Address) (b : Bool)
  | opSetAccumulatedFees (f : Int)
  | opSetSettlementHash (id : Nat)
  | opSetPaused (b : Bool)
  | opSetRateLimitCooldown (c : Nat)
  | opSetLastSettlementTime (a : Address) (t : Nat)
  | opSetDailyLimit (c k : String) (l : Int)
  | opSetUserTransfers (a : Address) (ts : List TransferRecord)
  | opSetAdminRole (a : Address) (b : Bool)
  | opSetAdminCount (c : Nat)
  | opSetTokenWhitelisted (t : Address) (b : Bool)

/-- Apply one exposed storage operation. -/
def StorageOp.apply (e : Env) : StorageOp → Env
  | .opSetAdmin a => set_admin e a
  | .opSetUsdcToken t => set_usdc_token e t
  | .opSetPlatformFeeBps f => set_platform_fee_bps e f
  | .opSetRemittanceCounter c => set_remittance_counter e c
  | .opSetRemittance id r => set_remittance e id r
  | .opSetAgentRegistered a b => set_agent_registered e a b
  | .opSetAccumulatedFees f => set_accumulated_fees e f
  | .opSetSettlementHash id => set_settlement_hash e id
  | .opSetPaused b => set_paused e b
  | .opSetRateLimitCooldown c => set_rate_limit_cooldown e c
  | .opSetLastSettlementTime a t => set_last_settlement_time e a t
  | .opSetDailyLimit c k l => set_daily_limit e c k l
  | .opSetUserTransfers a ts => set_user_transfers e a ts
  | .opSetAdminRole a b => set_admin_role e a b
  | .opSetAdminCount c => set_admin_count e c
  | .opSetTokenWhitelisted t b => set_token_whitelisted e t b

/-- Fold a sequence of exposed storage operations over the state. -/
def applyStorageOps (e : Env) (ops : List StorageOp) : Env :=
  ops.foldl StorageOp.apply e

/-- The conditions that make every later same-id `confirm_payout` die on
the dedup check: the contract is not paused, the configured settlement
token is whitelisted, and the settlement marker for `id` is set. A
successful settlement of `id` establishes them, and `confirm_payout`
itself never unsets any of them. -/
def DedupInv (id : Nat) (e : Env) : Prop :=
  is_paused e = false ∧
  (∃ t, get_usdc_token e = .ok t ∧ is_token_whitelisted e t = true) ∧
  has_settlement_hash e id = true

/-! ## Concrete states used to exercise the definitions -/

/-- A fresh contract at time 500 whose rate-limit cooldown was never
configured. -/
def envNoCooldown : Env := { emptyEnv with timestamp := 500 }

/-- Cooldown 60s, sender 0 last settled at t = 100, current time t = 130
(the spec's rate-limit example). -/
def envRL : Env :=
  { emptyEnv with
      rateLimitCooldown := some 60
      lastSettlementTime := fun a => if a = 0 then some 100 else none
      timestamp := 130 }

/-- Exactly one admin (address 0), admin count 1. -/
def envOneAdmin : Env :=
  { emptyEnv with
      adminRole := fun a => if a = 0 then some true else none
      adminCount := some 1 }

/-- Two admins (addresses 0 and 1), admin count 2. -/
def envTwoAdmins : Env :=
  { emptyEnv with
      adminRole := fun a => if a = 0 ∨ a = 1 then some true else none
      adminCount := some 2 }

/-- An initialized state ready for a settlement: token 77 whitelisted,
fee rate 50 bps, no accumulated fees, rate limiting disabled. -/
def envPay : Env :=
  { emptyEnv with
      usdcToken := some 77
      tokenWhitelisted := fun t => if t = 77 then some true else none
      platformFeeBps := some 50
      accumulatedFees := some 0
      rateLimitCooldown := some 0
      timestamp := 1000 }

/-- Settlement of 1,000,000 from sender 1 to recipient 2 under id 42. -/
def payP : PayoutParams := ⟨1, 42, 2, 1000000, "USD", "US"⟩

/-- The state `confirm_payout envPay payP` succeeds into. -/
def envPay1 : Env := ((confirm_payout envPay payP).toOption).getD emptyEnv

/-- A state with a daily cap of 1000 configured for (USD, US) and three
recorded transfers for user 0: 500 in-window matching, 400 out-of-window
matching, 300 in-window for a different pair; current time 100000. -/
def envDL : Env :=
  { emptyEnv with
      dailyLimit := fun c k => if c = "USD" ∧ k = "US" then some ⟨"USD", "US", 1000⟩ else none
      userTransfers := fun u =>
        if u = 0 then
          some [⟨90000, 500, "USD", "US"⟩, ⟨10, 400, "USD", "US"⟩, ⟨90000, 300, "EUR", "FR"⟩]
        else none
      timestamp := 100000 }

/-- A state whose settlement marker for id 5 is set. -/
def envMarked : Env :=
  { emptyEnv with settlementHash := fun id => if id = 5 then some true else none }

/-! ## Theorems -/

/-- C1: in `errors.rs`, `Unauthorized` and `RateLimitExceeded` are both
assigned discriminant 14, so the two error values are indistinguishable by
code; every other pair of distinct variants that carry a declared
discriminant have different discriminants. -/
theorem discriminant_collision :
    ContractError.discriminant .Unauthorized = some 14 ∧
    ContractError.discriminant .RateLimitExceeded = some 14 ∧
    ∀ a b : ContractError, a ≠ b → (ContractError.discriminant a).isSome →
      ContractError.discriminant a = ContractError.discriminant b →
      (a = .Unauthorized ∧ b = .RateLimitExceeded) ∨
      (a = .RateLimitExceeded ∧ b = .Unauthorized) := by
  refine ⟨rfl, rfl, ?_⟩
  intro a b hne hs heq
  cases a <;> cases b <;> simp_all [ContractError.discriminant]

/-- Witness for C1 at the colliding pair itself. -/
theorem discriminant_collision_witness :
    ContractError.Unauthorized ≠ ContractError.RateLimitExceeded ∧
    (ContractError.discriminant .Unauthorized).isSome = true ∧
    ContractError.discriminant .Unauthorized =
      ContractError.discriminant .RateLimitExceeded ∧
    ((ContractError.Unauthorized = .Unauthorized ∧
      ContractError.RateLimitExceeded = .RateLimitExceeded) ∨
     (ContractError.Unauthorized = .RateLimitExceeded ∧
      ContractError.RateLimitExceeded = .Unauthorized)) :=
  ⟨by decide, by decide, by decide,
   discriminant_collision.2.2 .Unauthorized .RateLimitExceeded (by decide) (by decide)
     (by decide)⟩

/-- C9: the flag and history getters are total on states where their key
was never written and default rather than error: `is_paused`, `is_admin`,
`is_token_whitelisted` and `is_agent_registered` return `false` and
`get_user_transfers` returns the empty vector when the key is absent. -/
theorem absent_key_defaults (e : Env) (a g t u : Address)
    (hp : e.paused = none) (ha : e.adminRole a = none)
    (ht : e.tokenWhitelisted t = none) (hg : e.agentRegistered g = none)
    (hu : e.userTransfers u = none) :
    is_paused e = false ∧ is_admin e a = false ∧
    is_token_whitelisted e t = false ∧ is_agent_registered e g = false ∧
    get_user_transfers e u = [] := by
  simp [is_paused, is_admin, is_token_whitelisted, is_agent_registered,
    get_user_transfers, hp, ha, ht, hg, hu]

/-- Witness for C9: the fresh contract is unpaused, has no admins, no
whitelisted tokens, no agents, and empty transfer histories. -/
theorem absent_key_defaults_witness :
    is_paused emptyEnv = false ∧ is_admin emptyEnv 0 = false ∧
    is_token_whitelisted emptyEnv 1 = false ∧ is_agent_registered emptyEnv 2 = false ∧
    get_user_transfers emptyEnv 3 = [] :=
  absent_key_defaults emptyEnv 0 2 1 3 rfl rfl rfl rfl rfl

/-- C10: after `set_daily_limit c k l`, `get_daily_limit c k` returns the
`DailyLimit` record whose embedded currency, country and limit are exactly
`c`, `k` and `l`; `get_daily_limit` on a pair that was never written
returns `none`. -/
theorem daily_limit_roundtrip (e : Env) (c k c2 k2 : String) (l : Int)
    (h : e.dailyLimit c2 k2 = none) :
    get_daily_limit (set_daily_limit e c k l) c k = some ⟨c, k, l⟩ ∧
    get_daily_limit e c2 k2 = none := by
  constructor
  · simp [get_daily_limit, set_daily_limit]
  · simp [get_daily_limit, h]

/-- Witness for C10 on a fresh state and the pair (USD, US). -/
theorem daily_limit_roundtrip_witness :
    get_daily_limit (set_daily_limit emptyEnv "USD" "US" 1000) "USD" "US" =
      some ⟨"USD", "US", 1000⟩ ∧
    get_daily_limit emptyEnv "EUR" "FR" = none :=
  daily_limit_roundtrip emptyEnv "USD" "US" "EUR" "FR" 1000 rfl

/-- C7: on a fresh state whose cooldown was never configured,
`check_rate_limit` fails with `NotInitialized` — as `storage.rs` and the
spec say — yet the `errors.rs` `ContractError` enum declares no
`NotInitialized` variant, so that error value has no discriminant in the
declared error schema. -/
theorem rate_limit_not_initialized_gap :
    check_rate_limit envNoCooldown 7 = .error .NotInitialized ∧
    ContractError.discriminant .NotInitialized = none :=
  ⟨rfl, rfl⟩

/-- C2: with the cooldown configured as `c`, `check_rate_limit` succeeds
iff `c = 0` or every recorded last settlement lies at least `c` seconds in
the past (elapsed time clamped at zero by `Nat` subtraction), and it fails
with `RateLimitExceeded` iff `c ≠ 0` and the sender has a recorded last
settlement whose clamped elapsed time is strictly below `c`. -/
theorem check_rate_limit_characterization (e : Env) (sender : Address) (c : Nat)
    (hc : e.rateLimitCooldown = some c) :
    (check_rate_limit e sender = .ok () ↔
      (c = 0 ∨ ∀ lastTime, get_last_settlement_time e sender = some lastTime →
        c ≤ e.timestamp - lastTime)) ∧
    (check_rate_limit e sender = .error .RateLimitExceeded ↔
      (c ≠ 0 ∧ ∃ lastTime, get_last_settlement_time e sender = some lastTime ∧
        e.timestamp - lastTime < c)) := by
  have h1 : get_rate_limit_cooldown e = .ok c := by
    simp [get_rate_limit_cooldown, hc, okOr]
  by_cases hc0 : c = 0
  · have hval : check_rate_limit e sender = .ok () := by
      simp [check_rate_limit, h1, hc0]
    rw [hval]
    subst hc0
    simp
  · rcases hlt : get_last_settlement_time e sender with _ | lastTime
    · have hval : check_rate_limit e sender = .ok () := by
        simp [check_rate_limit, h1, hc0, hlt]
      rw [hval]
      constructor
      · constructor
        · intro _
          right
          intro lt2 hsome
          exact Option.noConfusion hsome
        · intro _
          rfl
      · constructor
        · intro h
          exact Except.noConfusion h
        · rintro ⟨_, lt2, hsome, _⟩
          exact Option.noConfusion hsome
    · by_cases helapsed : e.timestamp - lastTime < c
      · have hval : check_rate_limit e sender = .error .RateLimitExceeded := by
          simp [check_rate_limit, h1, hc0, hlt, helapsed]
        rw [hval]
        constructor
        · constructor
          · intro h
            exact Except.noConfusion h
          · rintro (h0 | hall)
            · exact absurd h0 hc0
            · have := hall lastTime rfl
              omega
        · constructor
          · intro _
            exact ⟨hc0, lastTime, rfl, helapsed⟩
          · intro _
            rfl
      · have hval : check_rate_limit e sender = .ok () := by
          simp [check_rate_limit, h1, hc0, hlt, helapsed]
        rw [hval]
        constructor
        · constructor
          · intro _
            right
            intro lt2 hsome
            injection hsome with h2
            omega
          · intro _
            rfl
        · constructor
          · intro h
            exact Except.noConfusion h
          · rintro ⟨_, lt2, hsome, hlt2⟩
            injection hsome with h2
            exact absurd hlt2 (by omega)

/-- Witness for C2: the spec's example — cooldown 60, last settlement at
t = 100, retry at t = 130 is rejected with `RateLimitExceeded`. -/
theorem check_rate_limit_characterization_witness :
    check_rate_limit envRL 0 = .error .RateLimitExceeded :=
  (check_rate_limit_characterization envRL 0 60 rfl).2.mpr
    ⟨by decide, 100, rfl, by decide⟩

/-- A successful `add_admin` increments the stored admin count. -/
theorem add_admin_ok_count (e e1 : Env) (caller newAdmin : Address)
    (h : add_admin e caller newAdmin = .ok e1) :
    get_admin_count e1 = get_admin_count e + 1 := by
  unfold add_admin at h
  split at h
  · exact Except.noConfusion h
  · split at h
    · exact Except.noConfusion h
    · injection h with h2
      subst h2
      rfl

/-- A successful `remove_admin` decrements the stored admin count and can
only happen when the count was not 1. -/
theorem remove_admin_ok_count (e e1 : Env) (caller target : Address)
    (h : remove_admin e caller target = .ok e1) :
    get_admin_count e1 = get_admin_count e - 1 ∧ get_admin_count e ≠ 1 := by
  unfold remove_admin at h
  split at h
  · exact Except.noConfusion h
  · split at h
    · exact Except.noConfusion h
    · split at h
      · exact Except.noConfusion h
      · injection h with h2
        subst h2
        exact ⟨rfl, by assumption⟩

/-- One admin operation cannot drive a positive admin count to zero. -/
theorem adminOp_preserves_count (e : Env) (op : AdminOp)
    (h : 1 ≤ get_admin_count e) : 1 ≤ get_admin_count (AdminOp.apply e op) := by
  cases op with
  | add caller newAdmin =>
    cases hadd : add_admin e caller newAdmin with
    | error err => simpa [AdminOp.apply, hadd] using h
    | ok e1 =>
      have hc := add_admin_ok_count e e1 caller newAdmin hadd
      simp only [AdminOp.apply, hadd]
      omega
  | remove caller target =>
    cases hrem : remove_admin e caller target with
    | error err => simpa [AdminOp.apply, hrem] using h
    | ok e1 =>
      have hc := remove_admin_ok_count e e1 caller target hrem
      simp only [AdminOp.apply, hrem]
      omega

/-- C5 (amended): starting from an initialized state (admin count at least
one), no sequence of `add_admin` / `remove_admin` operations can bring the
admin count to zero; and in a state whose admin count is 1, `remove_admin`
never succeeds — it fails with `CannotRemoveLastAdmin` precisely when the
caller passes the admin check and the target is an admin, and with the
authorization or not-found error otherwise, in every case changing
nothing. -/
theorem admin_quorum (s : Env) (ops : List AdminOp) (caller target : Address)
    (h1 : 1 ≤ get_admin_count s) :
    1 ≤ get_admin_count (applyAdminOps s ops) ∧
    (get_admin_count s = 1 →
      (∀ s1, remove_admin s caller target ≠ .ok s1) ∧
      (is_admin s caller = true → is_admin s target = true →
        remove_admin s caller target = .error .CannotRemoveLastAdmin)) := by
  constructor
  · unfold applyAdminOps
    induction ops generalizing s with
    | nil => exact h1
    | cons op rest ih =>
      simp only [List.foldl]
      exact ih (AdminOp.apply s op) (adminOp_preserves_count s op h1)
  · intro hone
    constructor
    · intro s1 hok
      exact (remove_admin_ok_count s s1 caller target hok).2 hone
    · intro hcaller htarget
      unfold remove_admin require_admin
      simp [hcaller, htarget, hone]

/-- Witness for C5: from the two-admin state, removing admin 1 then trying
to remove admin 0 keeps the count at one, and in the resulting spirit —
directly on the one-admin state — `remove_admin` by the sole admin on
itself fails `CannotRemoveLastAdmin`. -/
theorem admin_quorum_witness :
    1 ≤ get_admin_count (applyAdminOps envOneAdmin [.remove 0 0, .add 0 1, .remove 1 0]) ∧
    (∀ s1, remove_admin envOneAdmin 0 0 ≠ .ok s1) ∧
    remove_admin envOneAdmin 0 0 = .error .CannotRemoveLastAdmin := by
  have h := admin_quorum envOneAdmin [.remove 0 0, .add 0 1, .remove 1 0] 0 0 (by decide)
  have h2 := h.2 rfl
  exact ⟨h.1, h2.1, h2.2 rfl rfl⟩

/-- Counterexample for C5 as stated: `envOneAdmin` has exactly one admin
(address 0, count 1), yet `remove_admin` called by the non-admin address 1
against it fails with `Unauthorized`, not `CannotRemoveLastAdmin`. -/
theorem remove_admin_one_admin_cex :
    is_admin envOneAdmin 0 = true ∧ is_admin envOneAdmin 1 = false ∧
    get_admin_count envOneAdmin = 1 ∧
    remove_admin envOneAdmin 1 0 = .error .Unauthorized ∧
    remove_admin envOneAdmin 1 0 ≠ .error .CannotRemoveLastAdmin := by
  refine ⟨rfl, rfl, rfl, rfl, ?_⟩
  intro hcontra
  have : ContractError.Unauthorized = ContractError.CannotRemoveLastAdmin := by
    have h0 : remove_admin envOneAdmin 1 0 = .error .Unauthorized := rfl
    rw [h0] at hcontra
    injection hcontra
  exact ContractError.noConfusion this

/-- One exposed storage operation never clears a set settlement marker:
`set_settlement_hash` only writes `true`, and no other setter touches the
`SettlementHash` key space. -/
theorem storageOp_preserves_marker (e : Env) (id : Nat) (op : StorageOp)
    (h : has_settlement_hash e id = true) :
    has_settlement_hash (StorageOp.apply e op) id = true := by
  cases op with
  | opSetSettlementHash id2 =>
    simp only [StorageOp.apply, set_settlement_hash, has_settlement_hash, upd]
    by_cases hid : id = id2
    · simp [hid]
    · simpa [hid] using h
  | opSetAdmin a => exact h
  | opSetUsdcToken t => exact h
  | opSetPlatformFeeBps f => exact h
  | opSetRemittanceCounter c => exact h
  | opSetRemittance id2 r => exact h
  | opSetAgentRegistered a b => exact h
  | opSetAccumulatedFees f => exact h
  | opSetPaused b => exact h
  | opSetRateLimitCooldown c => exact h
  | opSetLastSettlementTime a t => exact h
  | opSetDailyLimit c k l => exact h
  | opSetUserTransfers a ts => exact h
  | opSetAdminRole a b => exact h
  | opSetAdminCount c => exact h
  | opSetTokenWhitelisted t b => exact h

/-- C8: once `has_settlement_hash` returns `true` for a remittance id, it
still returns `true` after any further sequence of the exposed storage
operations — the dedup marker is never cleared. -/
theorem settlement_marker_persistent (e : Env) (id : Nat)
    (h : has_settlement_hash e id = true) (ops : List StorageOp) :
    has_settlement_hash (applyStorageOps e ops) id = true := by
  unfold applyStorageOps
  induction ops generalizing e with
  | nil => exact h
  | cons op rest ih =>
    simp only [List.foldl]
    exact ih (StorageOp.apply e op) (storageOp_preserves_marker e id op h)

/-- Witness for C8: the marker for id 5 survives a pause toggle, another
id's marker, a fee write, and a whitelist change. -/
theorem settlement_marker_persistent_witness :
    has_settlement_hash envMarked 5 = true ∧
    has_settlement_hash
      (applyStorageOps envMarked
        [.opSetPaused true, .opSetSettlementHash 9, .opSetAccumulatedFees 3,
         .opSetTokenWhitelisted 7 false]) 5 = true :=
  ⟨rfl, settlement_marker_persistent envMarked 5 rfl
    [.opSetPaused true, .opSetSettlementHash 9, .opSetAccumulatedFees 3,
     .opSetTokenWhitelisted 7 false]⟩

/-- Folding addition of record amounts is summation of the mapped
amounts. -/
theorem foldl_add_amount (l : List TransferRecord) (init : Int) :
    l.foldl (fun acc r => acc + r.amount) init =
      init + (l.map TransferRecord.amount).sum := by
  induction l generalizing init with
  | nil => simp
  | cons r rs ih =>
    simp only [List.foldl, List.map, List.sum_cons]
    rw [ih]
    ring

/-- C6: with a cap configured for the `(currency, country)` pair,
`check_daily_limit` fails `DailySendLimitExceeded` exactly when the sum of
the user's matching in-window record amounts plus the new amount exceeds
the cap (and succeeds exactly otherwise); with no cap configured for the
pair it always succeeds. -/
theorem check_daily_limit_characterization (e : Env) (user : Address)
    (c k : String) (amount : Int) :
    (get_daily_limit e c k = none → check_daily_limit e user c k amount = .ok ()) ∧
    ∀ dl, get_daily_limit e c k = some dl →
      ((check_daily_limit e user c k amount = .error .DailySendLimitExceeded ↔
        dl.limit <
          (((get_user_transfers e user).filter fun r =>
              decide (r.currency = c) && decide (r.country = k) &&
              decide (e.timestamp - dayWindow ≤ r.timestamp)).map
            TransferRecord.amount).sum + amount) ∧
       (check_daily_limit e user c k amount = .ok () ↔
        (((get_user_transfers e user).filter fun r =>
            decide (r.currency = c) && decide (r.country = k) &&
            decide (e.timestamp - dayWindow ≤ r.timestamp)).map
          TransferRecord.amount).sum + amount ≤ dl.limit)) := by
  have hsum : daily_window_sum e user c k =
      (((get_user_transfers e user).filter fun r =>
          decide (r.currency = c) && decide (r.country = k) &&
          decide (e.timestamp - dayWindow ≤ r.timestamp)).map
        TransferRecord.amount).sum := by
    unfold daily_window_sum
    rw [foldl_add_amount]
    ring
  constructor
  · intro hnone
    simp [check_daily_limit, hnone]
  · intro dl hdl
    by_cases hover : dl.limit < daily_window_sum e user c k + amount
    · have hval : check_daily_limit e user c k amount = .error .DailySendLimitExceeded := by
        simp [check_daily_limit, hdl, hover]
      rw [hval, ← hsum]
      constructor
      · exact ⟨fun _ => hover, fun _ => rfl⟩
      · constructor
        · intro h
          exact Except.noConfusion h
        · intro hle
          omega
    · have hval : check_daily_limit e user c k amount = .ok () := by
        simp [check_daily_limit, hdl, hover]
      rw [hval, ← hsum]
      constructor
      · constructor
        · intro h
          exact Except.noConfusion h
        · intro hlt
          exact absurd hlt hover
      · exact ⟨fun _ => by omega, fun _ => rfl⟩

/-- Witness for C6: with a 1000 cap on (USD, US), user 0's in-window
matching volume is 500 (the out-of-window 400 and the (EUR, FR) 300 do not
count), so sending 600 fails `DailySendLimitExceeded`, while the
unconfigured pair (JPY, JP) accepts any amount. -/
theorem check_daily_limit_characterization_witness :
    check_daily_limit envDL 0 "USD" "US" 600 = .error .DailySendLimitExceeded ∧
    check_daily_limit envDL 0 "JPY" "JP" 999999 = .ok () := by
  constructor
  · exact (((check_daily_limit_characterization envDL 0 "USD" "US" 600).2
      ⟨"USD", "US", 1000⟩ rfl).1).mpr (by decide)
  · exact (check_daily_limit_characterization envDL 0 "JPY" "JP" 999999).1 rfl

/-- `Int` truncating division (Rust `i128` `/`) agrees with floor division
on non-negative operands. -/
theorem tdiv_eq_fdiv_nonneg (a b : Int) (ha : 0 ≤ a) (hb : 0 ≤ b) :
    a.tdiv b = a.fdiv b := by
  obtain ⟨m, rfl⟩ := Int.eq_ofNat_of_zero_le ha
  obtain ⟨n, rfl⟩ := Int.eq_ofNat_of_zero_le hb
  cases m with
  | zero => simp [Int.tdiv, Int.fdiv]
  | succ m2 => rfl

/-- `settle_writes` leaves the pause flag untouched. -/
theorem settle_writes_paused (e : Env) (p : PayoutParams) (fee fees : Int) :
    (settle_writes e p fee fees).paused = e.paused := rfl

/-- `settle_writes` leaves the settlement-token cell untouched. -/
theorem settle_writes_usdc (e : Env) (p : PayoutParams) (fee fees : Int) :
    (settle_writes e p fee fees).usdcToken = e.usdcToken := rfl

/-- `settle_writes` leaves the token whitelist untouched. -/
theorem settle_writes_whitelist (e : Env) (p : PayoutParams) (fee fees : Int) :
    (settle_writes e p fee fees).tokenWhitelisted = e.tokenWhitelisted := rfl

/-- `settle_writes` sets exactly the settlement marker of its id. -/
theorem settle_writes_marker (e : Env) (p : PayoutParams) (fee fees : Int) :
    (settle_writes e p fee fees).settlementHash =
      upd e.settlementHash p.id (some true) := rfl

/-- `settle_writes` stores the old accumulated fees plus the fee. -/
theorem settle_writes_fees (e : Env) (p : PayoutParams) (fee fees : Int) :
    (settle_writes e p fee fees).accumulatedFees = some (fees + fee) := rfl

/-- `settle_writes` appends exactly one external transfer, of
`amount - fee` to the recipient. -/
theorem settle_writes_log (e : Env) (p : PayoutParams) (fee fees : Int) :
    (settle_writes e p fee fees).externalTransfers =
      e.externalTransfers ++ [⟨p.recipient, p.amount - fee⟩] := rfl

/-- Inversion of a successful `confirm_payout`: all five checks passed and
the result state is exactly `settle_writes` with the computed fee. -/
theorem confirm_payout_ok_inv (e e1 : Env) (p : PayoutParams)
    (h : confirm_payout e p = .ok e1) :
    is_paused e = false ∧
    (∃ t, get_usdc_token e = .ok t ∧ is_token_whitelisted e t = true) ∧
    has_settlement_hash e p.id = false ∧
    ∃ feeBps fees, get_platform_fee_bps e = .ok feeBps ∧
      get_accumulated_fees e = .ok fees ∧
      e1 = settle_writes e p ((p.amount * (feeBps : Int)).tdiv 10000) fees := by
  unfold confirm_payout at h
  cases hpause : is_paused e with
  | true => simp [hpause] at h
  | false =>
  simp only [hpause] at h
  cases husdc : get_usdc_token e with
  | error err => simp [husdc] at h
  | ok token =>
  simp only [husdc] at h
  cases hwl : is_token_whitelisted e token with
  | false => simp [hwl] at h
  | true =>
  simp only [hwl] at h
  cases hdup : has_settlement_hash e p.id with
  | true => simp [hdup] at h
  | false =>
  simp only [hdup] at h
  cases hrl : check_rate_limit e p.sender with
  | error err => simp [hrl] at h
  | ok u =>
  simp only [hrl] at h
  cases hdaily : check_daily_limit e p.sender p.currency p.country p.amount with
  | error err => simp [hdaily] at h
  | ok u2 =>
  simp only [hdaily] at h
  cases hfb : get_platform_fee_bps e with
  | error err => simp [hfb] at h
  | ok feeBps =>
  simp only [hfb] at h
  cases hfee : get_accumulated_fees e with
  | error err => simp [hfee] at h
  | ok fees =>
  simp only [hfee] at h
  injection h with h2
  exact ⟨rfl, ⟨token, rfl, hwl⟩, rfl, feeBps, fees, rfl, rfl, h2.symm⟩

/-- A successful settlement establishes `DedupInv` for its id. -/
theorem dedupInv_of_ok (e e1 : Env) (p : PayoutParams)
    (h : confirm_payout e p = .ok e1) : DedupInv p.id e1 := by
  obtain ⟨hp, ⟨t, hu, hw⟩, hdup, feeBps, fees, hfb, hfee, rfl⟩ :=
    confirm_payout_ok_inv e e1 p h
  refine ⟨hp, ⟨t, hu, hw⟩, ?_⟩
  unfold has_settlement_hash
  rw [settle_writes_marker]
  simp [upd]

/-- `confirm_payout` preserves `DedupInv` for every id. -/
theorem dedupInv_preserved (id : Nat) (e e1 : Env) (p : PayoutParams)
    (hinv : DedupInv id e) (h : confirm_payout e p = .ok e1) : DedupInv id e1 := by
  obtain ⟨hp, ⟨t, hu, hw⟩, hm⟩ := hinv
  obtain ⟨_, _, _, feeBps, fees, _, _, rfl⟩ := confirm_payout_ok_inv e e1 p h
  refine ⟨hp, ⟨t, hu, hw⟩, ?_⟩
  unfold has_settlement_hash at hm ⊢
  rw [settle_writes_marker]
  unfold upd
  by_cases hid : id = p.id <;> simp [hid, hm]

/-- Under `DedupInv`, a `confirm_payout` for that id dies on the dedup
check with `DuplicateSettlement`. -/
theorem dedupInv_dup_error (id : Nat) (e : Env) (p : PayoutParams)
    (hinv : DedupInv id e) (hid : p.id = id) :
    confirm_payout e p = .error .DuplicateSettlement := by
  obtain ⟨hp, ⟨t, hu, hw⟩, hm⟩ := hinv
  subst hid
  simp [confirm_payout, hp, hu, hw, hm]

/-- `DedupInv` survives any sequence of `confirm_payout` invocations. -/
theorem dedupInv_applyPayouts (id : Nat) (e : Env) (ps : List PayoutParams)
    (hinv : DedupInv id e) : DedupInv id (applyPayouts e ps) := by
  induction ps generalizing e with
  | nil => exact hinv
  | cons p rest ih =>
    simp only [applyPayouts]
    cases hcp : confirm_payout e p with
    | error err =>
      simp only [hcp]
      exact ih e hinv
    | ok e1 =>
      simp only [hcp]
      exact ih e1 (dedupInv_preserved id e e1 p hinv hcp)

/-- Splitting a sequence of settlements. -/
theorem applyPayouts_append (e : Env) (xs ys : List PayoutParams) :
    applyPayouts e (xs ++ ys) = applyPayouts (applyPayouts e xs) ys := by
  induction xs generalizing e with
  | nil => rfl
  | cons p rest ih =>
    simp only [List.cons_append, applyPayouts]
    exact ih _

/-- C3: after one successful `confirm_payout` of an id, every later
`confirm_payout` of the same id — after any further sequence of
settlements — fails with `DuplicateSettlement`, and as a state transition
it is a no-op: all balances and counters stay exactly as they were. -/
theorem confirm_payout_idempotent (e e1 : Env) (p : PayoutParams)
    (h : confirm_payout e p = .ok e1) (ps : List PayoutParams) (p2 : PayoutParams)
    (hid : p2.id = p.id) :
    confirm_payout (applyPayouts e1 ps) p2 = .error .DuplicateSettlement ∧
    applyPayouts e1 (ps ++ [p2]) = applyPayouts e1 ps := by
  have hinv := dedupInv_applyPayouts p.id e1 ps (dedupInv_of_ok e e1 p h)
  have hdup := dedupInv_dup_error p.id (applyPayouts e1 ps) p2 hinv hid
  refine ⟨hdup, ?_⟩
  rw [applyPayouts_append]
  simp [applyPayouts, hdup]

/-- Witness for C3: replaying the concrete settlement of id 42 right after
its success fails `DuplicateSettlement` and changes nothing. -/
theorem confirm_payout_idempotent_witness :
    confirm_payout (applyPayouts envPay1 []) payP = .error .DuplicateSettlement ∧
    applyPayouts envPay1 ([] ++ [payP]) = applyPayouts envPay1 [] :=
  confirm_payout_idempotent envPay envPay1 payP rfl [] payP rfl

/-- C4: a successful `confirm_payout` with fee rate `feeBps` in [0, 10000]
and positive amount computes `fee = floor(amount * feeBps / 10000)`,
hands `amount - fee` to the external transfer to the recipient, and grows
`AccumulatedFees` by exactly `fee`. -/
theorem confirm_payout_fee_correct (e e1 : Env) (p : PayoutParams)
    (feeBps : Nat) (fees : Int)
    (hF : get_platform_fee_bps e = .ok feeBps) (hFle : feeBps ≤ 10000)
    (hA : 0 < p.amount) (hfees : get_accumulated_fees e = .ok fees)
    (h : confirm_payout e p = .ok e1) :
    get_accumulated_fees e1 = .ok (fees + (p.amount * (feeBps : Int)).fdiv 10000) ∧
    e1.externalTransfers = e.externalTransfers ++
      [⟨p.recipient, p.amount - (p.amount * (feeBps : Int)).fdiv 10000⟩] := by
  obtain ⟨_, _, _, feeBps2, fees2, hF2, hfees2, rfl⟩ := confirm_payout_ok_inv e e1 p h
  rw [hF] at hF2
  injection hF2 with hb
  subst hb
  rw [hfees] at hfees2
  injection hfees2 with hf
  subst hf
  have htd : (p.amount * (feeBps : Int)).tdiv 10000 =
      (p.amount * (feeBps : Int)).fdiv 10000 :=
    tdiv_eq_fdiv_nonneg _ _
      (mul_nonneg (le_of_lt hA) (Int.ofNat_nonneg feeBps)) (by norm_num)
  constructor
  · unfold get_accumulated_fees okOr
    rw [settle_writes_fees, htd]
  · rw [settle_writes_log, htd]

/-- Witness for C4: the spec's example — fee rate 50 bps on 1,000,000
yields fee 5,000, the recipient receives 995,000, and accumulated fees
grow from 0 to 5,000. -/
theorem confirm_payout_fee_correct_witness :
    confirm_payout envPay payP = .ok envPay1 ∧
    get_accumulated_fees envPay1 = .ok 5000 ∧
    envPay1.externalTransfers = [⟨2, 995000⟩] := by
  have h0 : confirm_payout envPay payP = .ok envPay1 := rfl
  have h := confirm_payout_fee_correct envPay envPay1 payP 50 0 rfl (by decide)
    (by decide) rfl h0
  refine ⟨h0, ?_, ?_⟩
  · rw [h.1]
    have h1 : (0 : Int) + (payP.amount * ((50 : Nat) : Int)).fdiv 10000 = 5000 := by decide
    rw [h1]
  · rw [h.2]
    have h2 : payP.amount - (payP.amount * ((50 : Nat) : Int)).fdiv 10000 = 995000 := by decide
    rw [h2]
    rfl
